import Mathlib

/-!
Verification development for the legal-statute-analysis backend.

The definitions below are a shallow embedding of the document ingestion
pipeline (file_storage.py, ocr.py, document_service.py, api/documents.py)
and the analysis pipeline (llm_service.py, analysis_service.py,
api/analysis.py).  Databases are modelled as lists of records, the file
store as a list of (name, size) pairs, and time / generated identifiers
are passed as explicit arguments.  External-service outcomes (OCR
extraction, the reasoning service) are passed in as Except values so that
every failure branch of the Python code is an explicit case here.

A central modelled fact: the documents schema in models/document.py does
not declare the attribute names document_service.py constructs and
dereferences (original_filename, stored_filename, file_path, mime_type,
upload_status, extracted_text, page_count, ocr_metadata), so on the real
program every accepted upload raises TypeError at the Document
constructor and every process call raises AttributeError at
document.file_path before reaching the extractor; uploadDocument and
processDocument embed those failure paths, not the dead success paths.
-/

namespace LegalAnalysis

/-! ### Configuration defaults (core/config.py, class Settings) -/

/-- Settings.max_file_size = 10 * 1024 * 1024. -/
def maxFileSize : Nat := 10 * 1024 * 1024

/-- Settings.allowed_extensions = ".pdf", split on ",". -/
def allowedExtensions : List String := [".pdf"]

/-- Settings.upload_dir = "data/uploads". -/
def uploadDirName : String := "data/uploads"

/-! ### Path and string helpers (pathlib / str semantics used by the code) -/

/-- Python Path(filename).suffix: the extension (with the dot) of the final
path component; empty when there is no dot, the dot is the first character
of the name, or the dot is the last character.  The final component is
read off the reversed character list (trailing separators stripped, then
the run up to the next separator). -/
def pathSuffix (filename : String) : String :=
  let rev := (filename.toList.reverse.dropWhile (fun c => c = '/')).takeWhile
    (fun c => c ≠ '/')
  match rev.findIdx? (fun c => c = '.') with
  | none => ""
  | some j =>
    if j = 0 then ""
    else if rev.length - 1 - j = 0 then ""
    else String.mk ('.' :: (rev.take j).reverse)

/-- Python str.lower (the characters relevant here are ASCII or CJK, where
Char.toLower agrees with Python). -/
def strLower (s : String) : String :=
  String.mk (s.toList.map Char.toLower)

/-- Occurrence of pat somewhere in s, on character lists. -/
def containsSub (s pat : List Char) : Bool :=
  match s with
  | [] => pat.isEmpty
  | _ :: rest => pat.isPrefixOf s || containsSub rest pat

/-- Python "pat in s": substring containment. -/
def strContains (s pat : String) : Bool :=
  containsSub s.toList pat.toList

/-! ### File store (utils/file_storage.py)

The upload directory is modelled as a list of (stored filename, size)
entries; stored filenames are unique in a real directory. -/

abbrev FileStore := List (String × Nat)

/-- os unlink of a stored name (FileStorage.delete_file, and the cleanup
paths inside save_file): the entry with that name disappears. -/
def fsDelete (fs : FileStore) (name : String) : FileStore :=
  fs.filter (fun e => e.1 ≠ name)

/-- FileStorage.is_allowed_file. -/
def isAllowedFile (filename : String) : Bool :=
  if filename = "" then false
  else allowedExtensions.contains (strLower (pathSuffix filename))

/-- FileStorage.check_file_size. -/
def checkFileSize (size : Nat) : Bool :=
  size ≤ maxFileSize

/-- FileStorage.save_file.  The collision-resistant uuid name generated by
generate_unique_filename is passed in as uniqueName.  Writing opens the
target path for writing (overwriting any entry of the same name), then the
size is re-checked post-write: an over-limit file is unlinked before the
ValueError is raised.  Returns the new store plus either (stored name,
path) or the raised error. -/
def saveFile (fs : FileStore) (originalFilename uniqueName : String) (size : Nat) :
    FileStore × Except String (String × String) :=
  if ¬ isAllowedFile originalFilename then
    (fs, .error ("File type not allowed: " ++ pathSuffix originalFilename))
  else
    let fs1 : FileStore := (uniqueName, size) :: fsDelete fs uniqueName
    if ¬ checkFileSize size then
      (fsDelete fs1 uniqueName, .error "File size exceeds limit")
    else
      (fs1, .ok (uniqueName, uploadDirName ++ "/" ++ uniqueName))

/-! ### Document records (models/document.py)

The documents table declares exactly the columns below (models/document.py
lines 21-47): the service layer's extra names (original_filename,
stored_filename, file_path, mime_type, upload_status, extracted_text,
page_count, ocr_metadata) are NOT mapped attributes, which is what makes
upload_document and process_document raise — see uploadDocument and
processDocument.  The onupdate-managed updated_at column is omitted: no
embedded operation reads or explicitly writes it. -/

/-- Document.processing_status values. -/
inductive ProcStatus where
  | uploaded
  | pending
  | processing
  | completed
  | failed
deriving DecidableEq, Repr

/-- One row of the documents table, with the columns models/document.py
actually declares. -/
structure DocRecord where
  id : Nat
  user_id : Nat
  filename : String
  file_type : String
  file_size : Nat
  storage_path : String
  processing_status : ProcStatus
  ocr_text : Option String
  ocr_confidence : Option String
  processing_started_at : Option Nat
  processing_completed_at : Option Nat
  error_message : Option String
  created_at : Nat
deriving DecidableEq, Repr

abbrev DocDB := List DocRecord

/-- db.query(Document).filter(Document.id == document_id).first(). -/
def findDocument (db : DocDB) (docId : Nat) : Option DocRecord :=
  db.find? (fun d => d.id == docId)

/-- Mutating the row with primary key docId and committing. -/
def updateDocument (db : DocDB) (docId : Nat) (f : DocRecord → DocRecord) : DocDB :=
  db.map (fun d => if d.id = docId then f d else d)

/-- DocumentService._get_mime_type. -/
def getMimeType (filename : String) : String :=
  let ext := strLower (pathSuffix filename)
  if ext = ".pdf" then "application/pdf"
  else if ext = ".doc" then "application/msword"
  else if ext = ".docx" then
    "application/vnd.openxmlformats-officedocument.wordprocessingml.document"
  else if ext = ".txt" then "text/plain"
  else if ext = ".png" then "image/png"
  else if ext = ".jpg" then "image/jpeg"
  else if ext = ".jpeg" then "image/jpeg"
  else "application/octet-stream"

/-- The dictionary OCRProcessor.extract_text_async would return, reduced
to the keys process_document reads: result["text"],
metadata["total_pages"], metadata["success"].  The document pipeline
never reaches the extractor call (see processDocument), so this outcome
is carried only to state that results are independent of it. -/
structure OcrResult where
  text : String
  total_pages : Nat
  success : Bool
deriving DecidableEq, Repr

/-- The dictionary the success path of process_document would build; that
path is unreachable (the AttributeError below fires first), so no value
of this type is ever produced. -/
structure ProcessResult where
  document_id : Nat
  processing_status : ProcStatus
deriving DecidableEq, Repr

/-- str(AttributeError) raised at Path(document.file_path) in
process_document (document_service.py line 132): file_path is not a
mapped attribute of Document.  The source message quotes the two names;
the quotes are dropped here. -/
def attributeErrorMsg : String :=
  "Document object has no attribute file_path"

/-- DocumentService.process_document.  tStart and tEnd are the two
datetime.utcnow() reads.  After the row is marked processing and
committed, Path(document.file_path) raises AttributeError — file_path is
not a column of models/document.py — BEFORE the extractor is invoked, so
the ocr outcome is never consulted: the except-handler re-queries the
row, marks it failed with the error message and completion time, commits,
and a RuntimeError is raised.  When the row is missing, the initial
ValueError reaches the same handler, which finds nothing, and the
RuntimeError propagates with the database untouched. -/
def processDocument (db : DocDB) (docId : Nat) (_ocr : Except String OcrResult)
    (tStart tEnd : Nat) : DocDB × Except String ProcessResult :=
  match findDocument db docId with
  | none => (db, .error "Failed to process document: Document not found")
  | some _ =>
    let db1 := updateDocument db docId (fun d =>
      { d with processing_status := .processing, processing_started_at := some tStart })
    let db2 := updateDocument db1 docId (fun d =>
      { d with processing_status := .failed,
               processing_completed_at := some tEnd,
               error_message := some attributeErrorMsg })
    (db2, .error ("Failed to process document: " ++ attributeErrorMsg))

/-- DocumentService.get_document: filter by id, and by user when given. -/
def getDocument (db : DocDB) (docId : Nat) (userId : Option Nat) : Option DocRecord :=
  db.find? (fun d => d.id == docId &&
    (match userId with | some u => d.user_id == u | none => true))

/-- DocumentService.get_user_documents: filter by user (and optional
status), order by created_at descending, then offset/limit. -/
def getUserDocuments (db : DocDB) (userId : Nat) (lim off : Nat)
    (statusFilter : Option ProcStatus) : List DocRecord :=
  ((db.filter (fun d => d.user_id == userId &&
      (match statusFilter with | some s => d.processing_status == s | none => true))).insertionSort
    (fun a b => b.created_at ≤ a.created_at)).drop off |>.take lim

/-- The dictionary the success path of upload_document would build; that
path is unreachable (the TypeError below fires first), so no value of
this type is ever produced. -/
structure UploadResult where
  document_id : Nat
  processing_status : ProcStatus
  processed : Option ProcessResult
deriving DecidableEq, Repr

/-- str(TypeError) raised at the Document(...) constructor in
upload_document (document_service.py line 63): the declarative-base
constructor rejects the first keyword that is not a mapped attribute, and
original_filename (the second keyword, after the valid user_id) is not a
column of models/document.py.  The source message quotes the keyword; the
quotes are dropped here. -/
def typeErrorMsg : String :=
  "original_filename is an invalid keyword argument for Document"

/-- DocumentService.upload_document.  The uuid filename is passed in as
uniqueName; size is the byte size of the stream.  A ValueError
(disallowed type from is_allowed_file, or over-limit size from save_file)
is re-raised unchanged.  After a successful save, get_file_info succeeds
on the just-written file, and then Document(user_id=...,
original_filename=..., ...) raises TypeError — original_filename is not a
mapped column — so no row is ever inserted: the generic except-handler
deletes the stored file and raises RuntimeError.  The remaining
parameters (newId, createdAt, processImmediately, ocr, tStart, tEnd) are
the values the insert and the immediate processing would have used; the
constructor raises before any of them matters, so the result is
independent of them all. -/
def uploadDocument (fs : FileStore) (db : DocDB) (filename : String) (_userId : Nat)
    (uniqueName : String) (size _newId _createdAt : Nat) (_processImmediately : Bool)
    (_ocr : Except String OcrResult) (_tStart _tEnd : Nat) :
    FileStore × DocDB × Except String UploadResult :=
  if ¬ isAllowedFile filename then
    (fs, db, .error ("File type not allowed: " ++ pathSuffix filename))
  else
    match saveFile fs filename uniqueName size with
    | (fs1, .error e) => (fs1, db, .error e)
    | (fs1, .ok (storedName, _path)) =>
      (fsDelete fs1 storedName, db,
       .error ("Failed to upload document: " ++ typeErrorMsg))

/-! ### Document API endpoints (api/documents.py) -/

/-- The responses of POST /documents/{id}/process. -/
inductive DocApiResponse where
  | notFound
  | alreadyProcessed (docId : Nat)
  | inProgress (docId : Nat)
  | processed (r : ProcessResult)
  | serverError
deriving DecidableEq, Repr

/-- api/documents.py process_document endpoint: ownership-scoped lookup,
then the completed / processing short-circuits, then the service call. -/
def apiProcessDocument (db : DocDB) (docId userId : Nat) (ocr : Except String OcrResult)
    (tStart tEnd : Nat) : DocDB × DocApiResponse :=
  match getDocument db docId (some userId) with
  | none => (db, .notFound)
  | some doc =>
    if doc.processing_status = .completed then (db, .alreadyProcessed docId)
    else if doc.processing_status = .processing then (db, .inProgress docId)
    else
      match processDocument db docId ocr tStart tEnd with
      | (db2, .ok r) => (db2, .processed r)
      | (db2, .error _) => (db2, .serverError)

/-! ### PDF extraction (utils/ocr.py)

Intermediate page images are named stem_page_{n}.png; since the page
number is embedded injectively in the real path, an image file is
modelled as the pair (pdf stem, page number).  The image directory (the
pdf's parent directory) is a list of such pairs. -/

abbrev ImageStore := List (String × Nat)

/-- Loop body of OCRProcessor._convert_pdf_to_images: page i is rendered
and saved as (stem, i+1); any exception mid-loop (pages i with outcome
false) is caught by the except-handler, which returns [] — images already
saved stay on disk. -/
def convertLoop (fs : ImageStore) (acc : List (String × Nat)) (stem : String)
    (i : Nat) : List Bool → ImageStore × List (String × Nat)
  | [] => (fs, acc.reverse)
  | ok :: rest =>
    if ok then
      convertLoop ((stem, i + 1) :: fs) ((stem, i + 1) :: acc) stem (i + 1) rest
    else
      (fs, [])

/-- OCRProcessor._convert_pdf_to_images: pages lists, per page, whether
rendering and saving that page's image succeeds (an ImportError of the
rasterizer behaves like an immediate failure before any page). -/
def convertPdfToImages (fs : ImageStore) (stem : String) (pages : List Bool) :
    ImageStore × List (String × Nat) :=
  convertLoop fs [] stem 0 pages

/-- The per-page loop of OCRProcessor.extract_text_from_pdf: extract text
from each image (extract_text_from_image catches every engine error
internally and falls back, so it is a total function) and then unlink the
image, swallowing unlink failures (unlink of an absent file is a no-op). -/
def extractPagesLoop (fs : ImageStore) (extract : String × Nat → String) :
    List (String × Nat) → ImageStore × List String
  | [] => (fs, [])
  | p :: rest =>
    let t := extract p
    let fs1 := fs.erase p
    let (fs2, ts) := extractPagesLoop fs1 extract rest
    (fs2, t :: ts)

/-- The dictionary returned by OCRProcessor.extract_text_from_pdf, with
the concatenated text kept as the list of per-page texts. -/
structure PdfExtractResult where
  pageTexts : List String
  total_pages : Nat
  success : Bool
deriving DecidableEq, Repr

/-- OCRProcessor.extract_text_from_pdf: rasterize, bail out with the
default (success = false) result when no images were produced, otherwise
OCR each page image, deleting it afterwards, and mark success. -/
def extractTextFromPdf (fs : ImageStore) (stem : String) (pages : List Bool)
    (extract : String × Nat → String) : ImageStore × PdfExtractResult :=
  match convertPdfToImages fs stem pages with
  | (fs1, []) => (fs1, { pageTexts := [], total_pages := 0, success := false })
  | (fs1, p :: ps) =>
    let (fs2, ts) := extractPagesLoop fs1 extract (p :: ps)
    (fs2, { pageTexts := ts, total_pages := (p :: ps).length, success := true })

/-- The image names created for pages i, i+1, ..., i+k-1. -/
def namesFrom (stem : String) (i k : Nat) : List (String × Nat) :=
  (List.range k).map (fun j => (stem, i + j + 1))

/-! ### Question analyses (models/question_analysis.py as used by
analysis_service.py)

Confidence scores and ratings are Floats in the source; they are modelled
as rationals.  The analysis_result JSON blob is represented by its
"method" key; the enrichment-only fields similar_questions and
practice_materials (set best-effort by _enhance_analysis, which swallows
its own failures and touches no other field) are omitted. -/

/-- One row of the question_analyses table. -/
structure QARecord where
  id : Nat
  user_id : Nat
  document_id : Option Nat
  question_text : String
  question_type : String
  question_difficulty : String
  confidence_score : ℚ
  study_suggestions : String
  ai_model_used : Option String
  method_flag : Option String
  user_rating : Option ℚ
  user_feedback : Option String
  created_at : Nat
  updated_at : Nat
deriving DecidableEq, Repr

abbrev QADB := List QARecord

/-- AnalysisService._classify_question_basic. -/
def classifyQuestionBasic (q : String) : String :=
  let tl := strLower q
  if ["選擇", "下列", "何者", "哪個"].any (fun k => strContains tl k) then "選擇題"
  else if ["說明", "解釋", "論述", "分析"].any (fun k => strContains tl k) then "申論題"
  else if ["案例", "事實", "情況", "甲乙"].any (fun k => strContains tl k) then "案例分析"
  else if strContains q "?" || strContains q "？" then "問答題"
  else "未分類"

/-- AnalysisService._estimate_difficulty_basic (len of a Python str is its
character count). -/
def estimateDifficultyBasic (q : String) : String :=
  let n := q.length
  if n < 50 then "初級"
  else if n < 150 then "中級"
  else "高級"

/-- The structured output of LLMService.analyze_legal_question, reduced to
the fields the orchestrator persists on the record. -/
structure LegalAnalysisResult where
  question_type : String
  difficulty_level : String
  confidence_score : ℚ
  study_suggestions : String
deriving DecidableEq, Repr

/-- The metadata dictionary returned alongside it. -/
structure LlmMetadata where
  model_used : String
  success : Bool
deriving DecidableEq, Repr

/-- The dictionary returned by AnalysisService.analyze_question, reduced
to the identifying fields plus the processing_metadata "method" key and
model identifier. -/
structure AnalysisResponse where
  analysis_id : Nat
  question_type : String
  difficulty_level : String
  confidence_score : ℚ
  method_flag : Option String
  model_used : Option String
deriving DecidableEq, Repr

/-- The row persisted by AnalysisService._fallback_analysis. -/
def fallbackRecord (qtext : String) (userId : Nat) (docId : Option Nat)
    (newId tNow : Nat) : QARecord :=
  { id := newId
    user_id := userId
    document_id := docId
    question_text := qtext
    question_type := classifyQuestionBasic qtext
    question_difficulty := estimateDifficultyBasic qtext
    confidence_score := 3 / 10
    study_suggestions := "請諮詢法律專家或使用完整AI分析功能"
    ai_model_used := some "fallback_classifier"
    method_flag := some "fallback"
    user_rating := none
    user_feedback := none
    created_at := tNow
    updated_at := tNow }

/-- AnalysisService._fallback_analysis: classify with the basic pattern
matcher, persist the fixed-low-confidence row, and return its dictionary,
whose processing_metadata method key is "fallback". -/
def fallbackAnalysis (db : QADB) (qtext : String) (userId : Nat) (docId : Option Nat)
    (newId tNow : Nat) : QADB × AnalysisResponse :=
  (db ++ [fallbackRecord qtext userId docId newId tNow],
   { analysis_id := newId
     question_type := classifyQuestionBasic qtext
     difficulty_level := estimateDifficultyBasic qtext
     confidence_score := 3 / 10
     method_flag := some "fallback"
     model_used := none })

/-- The row persisted on the successful AI path of analyze_question. -/
def aiRecord (qtext : String) (userId : Nat) (docId : Option Nat)
    (res : LegalAnalysisResult) (md : LlmMetadata) (newId tNow : Nat) : QARecord :=
  { id := newId
    user_id := userId
    document_id := docId
    question_text := qtext
    question_type := res.question_type
    question_difficulty := res.difficulty_level
    confidence_score := res.confidence_score
    study_suggestions := res.study_suggestions
    ai_model_used := some md.model_used
    method_flag := none
    user_rating := none
    user_feedback := none
    created_at := tNow
    updated_at := tNow }

/-- AnalysisService.analyze_question.  The availability flag is
llm_service.is_available(); the reasoning-service call outcome is passed
in as llm.  When the service is unavailable the fallback runs directly;
when the call raises, the except-handler rolls the transaction back (no
record of the AI path had been committed) and runs the fallback on the
original database.  Enrichment after the commit only touches the omitted
best-effort fields and swallows its own failures. -/
def analyzeQuestion (db : QADB) (qtext : String) (userId : Nat) (docId : Option Nat)
    (llmAvailable : Bool) (llm : Except String (LegalAnalysisResult × LlmMetadata))
    (newId tNow : Nat) : QADB × AnalysisResponse :=
  if ¬ llmAvailable then
    fallbackAnalysis db qtext userId docId newId tNow
  else
    match llm with
    | .ok (res, md) =>
      (db ++ [aiRecord qtext userId docId res md newId tNow],
       { analysis_id := newId
         question_type := res.question_type
         difficulty_level := res.difficulty_level
         confidence_score := res.confidence_score
         method_flag := none
         model_used := some md.model_used })
    | .error _ =>
      fallbackAnalysis db qtext userId docId newId tNow

/-- AnalysisService.get_analysis: id and owner must both match. -/
def getAnalysis (db : QADB) (analysisId userId : Nat) : Option QARecord :=
  db.find? (fun a => a.id == analysisId && a.user_id == userId)

/-- AnalysisService.get_user_analyses: filter by owner (and optional
question type), order by created_at descending, then offset/limit. -/
def getUserAnalyses (db : QADB) (userId : Nat) (lim off : Nat)
    (typeFilter : Option String) : List QARecord :=
  ((db.filter (fun a => a.user_id == userId &&
      (match typeFilter with | some t => a.question_type == t | none => true))).insertionSort
    (fun a b => b.created_at ≤ a.created_at)).drop off |>.take lim

/-- AnalysisService.rate_analysis: look the analysis up scoped to the
calling user; absent (or other-owned) means false with no change,
otherwise set rating, feedback and updated_at on that row and commit. -/
def rateAnalysis (db : QADB) (analysisId userId : Nat) (rating : ℚ)
    (feedback : Option String) (tNow : Nat) : QADB × Bool :=
  match getAnalysis db analysisId userId with
  | none => (db, false)
  | some _ =>
    (db.map (fun a =>
      if a.id == analysisId && a.user_id == userId then
        { a with user_rating := some rating, user_feedback := feedback, updated_at := tNow }
      else a), true)

/-! ### Analysis API endpoints (api/analysis.py) -/

/-- Outcomes of the POST rate endpoint of api/analysis.py. -/
inductive RateApiResult where
  | validationError
  | ok
  | notFound
deriving DecidableEq, Repr

/-- The rate endpoint: AnalysisRatingRequest validates rating with
ge=1.0, le=5.0 before the handler body runs (no state is touched on a
validation failure), then rate_analysis decides ok versus 404. -/
def apiRateAnalysis (db : QADB) (analysisId userId : Nat) (rating : ℚ)
    (feedback : Option String) (tNow : Nat) : QADB × RateApiResult :=
  if rating < 1 ∨ 5 < rating then
    (db, .validationError)
  else
    match rateAnalysis db analysisId userId rating feedback tNow with
    | (db1, true) => (db1, .ok)
    | (db1, false) => (db1, .notFound)

/-! ### Concrete records used to instantiate the theorems -/

/-- A completed document row owned by user 1 (such a row can only exist
if written outside the broken pipeline, e.g. directly in the database;
the completed guard of the process endpoint still applies to it). -/
def c2CompletedDoc : DocRecord :=
  { id := 3
    user_id := 1
    filename := "exam.pdf"
    file_type := "application/pdf"
    file_size := 4
    storage_path := "data/uploads/u.pdf"
    processing_status := .completed
    ocr_text := some "old text"
    ocr_confidence := some "0.9"
    processing_started_at := some 1
    processing_completed_at := some 2
    error_message := none
    created_at := 0 }

/-- A pending document row owned by user 7. -/
def c3PendingDoc : DocRecord :=
  { id := 1
    user_id := 7
    filename := "a.pdf"
    file_type := "application/pdf"
    file_size := 4
    storage_path := "data/uploads/u.pdf"
    processing_status := .pending
    ocr_text := none
    ocr_confidence := none
    processing_started_at := none
    processing_completed_at := none
    error_message := none
    created_at := 0 }

/-- The row c3PendingDoc after a process call: marked failed by the
except-handler with the AttributeError message, its ocr_text untouched. -/
def c3FailedDoc : DocRecord :=
  { c3PendingDoc with
    processing_status := .failed
    processing_started_at := some 5
    processing_completed_at := some 6
    error_message := some attributeErrorMsg }

/-- An analysis row owned by user 5. -/
def c8OtherUsersAnalysis : QARecord :=
  { id := 1
    user_id := 5
    document_id := none
    question_text := "下列何者為正確的契約成立要件？"
    question_type := "選擇題"
    question_difficulty := "初級"
    confidence_score := 9 / 10
    study_suggestions := "s"
    ai_model_used := some "gpt-4"
    method_flag := none
    user_rating := none
    user_feedback := none
    created_at := 0
    updated_at := 0 }

/-! ### Theorems -/

/-- Claim C5: for every filename whose extension is not in the configured
allow-list, the upload operation fails with a validation error, and no
file is written to the file store and no Document row is created. -/
theorem upload_rejects_disallowed_extension
    (fs : FileStore) (db : DocDB) (filename : String) (userId : Nat)
    (uniqueName : String) (size newId createdAt : Nat) (imm : Bool)
    (ocr : Except String OcrResult) (tStart tEnd : Nat)
    (h : isAllowedFile filename = false) :
    uploadDocument fs db filename userId uniqueName size newId createdAt imm ocr tStart tEnd
      = (fs, db, .error ("File type not allowed: " ++ pathSuffix filename)) := by
  simp [uploadDocument, h]

/-- Witness for C5: uploading "evil.exe" is rejected with both stores
untouched. -/
theorem upload_rejects_disallowed_extension_witness :
    uploadDocument [] [] "evil.exe" 1 "u.pdf" 4 1 0 false (.error "x") 0 0
      = ([], [], .error ("File type not allowed: " ++ pathSuffix "evil.exe")) :=
  upload_rejects_disallowed_extension [] [] "evil.exe" 1 "u.pdf" 4 1 0 false
    (.error "x") 0 0 (by decide)

/-- Claim C6: a payload whose written size exceeds the configured maximum
makes save_file (and with it the upload operation) fail, and the
just-written file is unlinked before the error is raised, so the store is
left exactly as it was and no over-limit file remains in it. -/
theorem save_oversize_removes_partial_file
    (fs : FileStore) (db : DocDB) (filename : String) (userId : Nat)
    (uniqueName : String) (size newId createdAt : Nat) (imm : Bool)
    (ocr : Except String OcrResult) (tStart tEnd : Nat)
    (hallow : isAllowedFile filename = true)
    (hfresh : ∀ e ∈ fs, e.1 ≠ uniqueName)
    (hsize : maxFileSize < size) :
    saveFile fs filename uniqueName size = (fs, .error "File size exceeds limit") ∧
    uploadDocument fs db filename userId uniqueName size newId createdAt imm ocr tStart tEnd
      = (fs, db, .error "File size exceeds limit") := by
  have hdel : fsDelete fs uniqueName = fs := by
    apply List.filter_eq_self.mpr
    intro e he
    simpa using hfresh e he
  have hbig : ¬ checkFileSize size = true := by
    simp [checkFileSize]
    omega
  have hsave : saveFile fs filename uniqueName size = (fs, .error "File size exceeds limit") := by
    simp [saveFile, hallow, hbig, fsDelete] at hdel ⊢
    simpa [fsDelete] using hdel
  refine ⟨hsave, ?_⟩
  simp [uploadDocument, hallow, hsave]

/-- Witness for C6: an 11 MiB payload is rejected and the store keeps only
its prior contents. -/
theorem save_oversize_removes_partial_file_witness :
    saveFile [("old.pdf", 7)] "a.pdf" "u.pdf" (11 * 1024 * 1024)
      = ([("old.pdf", 7)], .error "File size exceeds limit") ∧
    uploadDocument [("old.pdf", 7)] [] "a.pdf" 1 "u.pdf" (11 * 1024 * 1024) 1 0 false
        (.error "x") 0 0
      = ([("old.pdf", 7)], [], .error "File size exceeds limit") :=
  save_oversize_removes_partial_file [("old.pdf", 7)] [] "a.pdf" 1 "u.pdf"
    (11 * 1024 * 1024) 1 0 false (.error "x") 0 0 (by decide) (by decide) (by decide)

/-- Claim C4 (code bug): on every accepted upload — allowed extension,
in-limit size, collision-free generated name — the Document constructor
raises TypeError at the original_filename keyword, which is not a mapped
column, so no row is ever inserted; the generic handler deletes the
just-stored file (restoring the store) and upload raises RuntimeError
instead of returning a pending document, for either value of
process_immediately and independently of the extractor outcome. -/
theorem upload_constructor_type_error
    (fs : FileStore) (db : DocDB) (filename : String) (userId : Nat)
    (uniqueName : String) (size newId createdAt : Nat) (imm : Bool)
    (ocr : Except String OcrResult) (tStart tEnd : Nat)
    (hallow : isAllowedFile filename = true)
    (hfresh : ∀ e ∈ fs, e.1 ≠ uniqueName)
    (hsize : checkFileSize size = true) :
    uploadDocument fs db filename userId uniqueName size newId createdAt imm ocr tStart tEnd
      = (fs, db, .error ("Failed to upload document: " ++ typeErrorMsg)) := by
  have hdel : fsDelete fs uniqueName = fs := by
    apply List.filter_eq_self.mpr
    intro e he
    simpa using hfresh e he
  have h2 : fsDelete ((uniqueName, size) :: fsDelete fs uniqueName) uniqueName = fs := by
    rw [hdel]
    show ((uniqueName, size) :: fs).filter (fun e => e.1 ≠ uniqueName) = fs
    rw [List.filter_cons_of_neg (by simp)]
    exact hdel
  have hsave : saveFile fs filename uniqueName size
      = ((uniqueName, size) :: fsDelete fs uniqueName,
         .ok (uniqueName, uploadDirName ++ "/" ++ uniqueName)) := by
    simp [saveFile, hallow, hsize]
  unfold uploadDocument
  rw [if_neg (by simp [hallow]), hsave]
  simp [h2]

/-- Witness for C4 on a concrete accepted 4-byte PDF upload with
immediate processing disabled: nothing is inserted and the store ends
empty again. -/
theorem upload_constructor_type_error_witness :
    uploadDocument [] [] "exam.pdf" 1 "u.pdf" 4 9 0 false (.error "x") 0 0
      = ([], [], .error ("Failed to upload document: " ++ typeErrorMsg)) :=
  upload_constructor_type_error [] [] "exam.pdf" 1 "u.pdf" 4 9 0 false (.error "x") 0 0
    (by decide) (by decide) (by decide)

/-- Claim C2: invoking the process endpoint on a document already in
completed status returns a status-only response at once, with the
database (hence processing_completed_at) unchanged; the conclusion being
independent of the extractor outcome and of both timestamps shows that
text extraction is not re-invoked. -/
theorem process_completed_short_circuits
    (db : DocDB) (docId userId : Nat) (ocr : Except String OcrResult)
    (tStart tEnd : Nat) (doc : DocRecord)
    (hfind : getDocument db docId (some userId) = some doc)
    (hdone : doc.processing_status = .completed) :
    apiProcessDocument db docId userId ocr tStart tEnd = (db, .alreadyProcessed docId) := by
  simp [apiProcessDocument, hfind, hdone]

/-- Witness for C2 on a one-row database holding a completed document. -/
theorem process_completed_short_circuits_witness :
    apiProcessDocument [c2CompletedDoc] 3 1 (.ok { text := "t", total_pages := 1, success := true }) 5 6
      = ([c2CompletedDoc], .alreadyProcessed 3) :=
  process_completed_short_circuits [c2CompletedDoc] 3 1
    (.ok { text := "t", total_pages := 1, success := true }) 5 6 c2CompletedDoc
    (by decide) (by decide)

/-- Claim C7: while the reasoning service is marked unavailable, analyze
runs the deterministic fallback classifier: the persisted QuestionAnalysis
row and the returned result both carry confidence score exactly 3/10, and
the row records the model identifier "fallback_classifier". -/
theorem analyze_unavailable_runs_fallback
    (db : QADB) (qtext : String) (userId : Nat) (docId : Option Nat)
    (llm : Except String (LegalAnalysisResult × LlmMetadata)) (newId tNow : Nat) :
    analyzeQuestion db qtext userId docId false llm newId tNow
      = fallbackAnalysis db qtext userId docId newId tNow ∧
    (analyzeQuestion db qtext userId docId false llm newId tNow).1
      = db ++ [fallbackRecord qtext userId docId newId tNow] ∧
    (fallbackRecord qtext userId docId newId tNow).confidence_score = 3 / 10 ∧
    (fallbackRecord qtext userId docId newId tNow).ai_model_used
      = some "fallback_classifier" ∧
    (analyzeQuestion db qtext userId docId false llm newId tNow).2.confidence_score
      = 3 / 10 := by
  exact ⟨rfl, rfl, rfl, rfl, rfl⟩

/-- Claim C1: a reasoning-service failure is never surfaced by analyze:
whatever the availability flag, when the service call raises, the
transaction is rolled back (the fallback row is the only row added on top
of the original database) and the fallback result, flagged by its
metadata method "fallback", is returned to the caller. -/
theorem analyze_absorbs_llm_failure
    (db : QADB) (qtext : String) (userId : Nat) (docId : Option Nat)
    (avail : Bool) (e : String) (newId tNow : Nat) :
    analyzeQuestion db qtext userId docId avail (.error e) newId tNow
      = fallbackAnalysis db qtext userId docId newId tNow ∧
    (analyzeQuestion db qtext userId docId avail (.error e) newId tNow).2.method_flag
      = some "fallback" := by
  cases avail <;> exact ⟨rfl, rfl⟩

/-- Claim C8: the rate operation accepts ratings only inside the range 1
to 5 — a rating of 6 is rejected at the API boundary with no state change
— and only for an analysis owned by the caller: when every row with the
requested id belongs to someone else (or no row exists), the service
returns false, the endpoint answers not-found, and the records are
untouched. -/
theorem rate_bounds_and_ownership :
    (∀ (db : QADB) (aid uid : Nat) (fb : Option String) (t : Nat),
      apiRateAnalysis db aid uid 6 fb t = (db, .validationError)) ∧
    (∀ (db : QADB) (aid uid : Nat) (r : ℚ) (fb : Option String) (t : Nat),
      (∀ a ∈ db, a.id = aid → a.user_id ≠ uid) →
      rateAnalysis db aid uid r fb t = (db, false) ∧
      (1 ≤ r → r ≤ 5 → apiRateAnalysis db aid uid r fb t = (db, .notFound))) := by
  constructor
  · intro db aid uid fb t
    have : (5 : ℚ) < 6 := by norm_num
    simp [apiRateAnalysis, this]
  · intro db aid uid r fb t h
    have hnone : getAnalysis db aid uid = none := by
      apply List.find?_eq_none.mpr
      intro a ha
      simp only [Bool.and_eq_true, beq_iff_eq, not_and]
      intro hid
      exact fun huid => h a ha hid huid
    have hrate : rateAnalysis db aid uid r fb t = (db, false) := by
      simp [rateAnalysis, hnone]
    refine ⟨hrate, ?_⟩
    intro h1 h5
    have hin : ¬ (r < 1 ∨ 5 < r) := by
      push_neg
      exact ⟨h1, h5⟩
    simp [apiRateAnalysis, hin, hrate]

/-- Witness for C8: rating 6 is rejected outright, and user 2 cannot rate
the analysis owned by user 5. -/
theorem rate_bounds_and_ownership_witness :
    apiRateAnalysis [c8OtherUsersAnalysis] 1 2 6 none 0
      = ([c8OtherUsersAnalysis], .validationError) ∧
    rateAnalysis [c8OtherUsersAnalysis] 1 2 3 none 0 = ([c8OtherUsersAnalysis], false) ∧
    apiRateAnalysis [c8OtherUsersAnalysis] 1 2 3 none 0
      = ([c8OtherUsersAnalysis], .notFound) :=
  have h2 := rate_bounds_and_ownership.2 [c8OtherUsersAnalysis] 1 2 3 none 0
    (by decide)
  ⟨rate_bounds_and_ownership.1 [c8OtherUsersAnalysis] 1 2 none 0,
   h2.1, h2.2 (by norm_num) (by norm_num)⟩

/-- Claim C10: the read operations are ownership-scoped: get_analysis and
get_user_analyses only ever return QuestionAnalysis rows of the requesting
user, and get_document (with a user filter) and get_user_documents only
ever return that user's Document rows. -/
theorem reads_are_owner_scoped :
    (∀ (db : QADB) (aid uid : Nat) (a : QARecord),
      getAnalysis db aid uid = some a → a.user_id = uid) ∧
    (∀ (db : QADB) (uid lim off : Nat) (tf : Option String) (a : QARecord),
      a ∈ getUserAnalyses db uid lim off tf → a.user_id = uid) ∧
    (∀ (db : DocDB) (did uid : Nat) (d : DocRecord),
      getDocument db did (some uid) = some d → d.user_id = uid) ∧
    (∀ (db : DocDB) (uid lim off : Nat) (sf : Option ProcStatus) (d : DocRecord),
      d ∈ getUserDocuments db uid lim off sf → d.user_id = uid) := by
  refine ⟨?_, ?_, ?_, ?_⟩
  · intro db aid uid a hfind
    have hp := List.find?_some hfind
    simp only [Bool.and_eq_true, beq_iff_eq] at hp
    exact hp.2
  · intro db uid lim off tf a hmem
    have h1 : a ∈ (db.filter (fun a => a.user_id == uid &&
        (match tf with | some t => a.question_type == t | none => true))).insertionSort
        (fun a b => b.created_at ≤ a.created_at) :=
      List.drop_subset off _ (List.take_subset lim _ hmem)
    have h2 := (List.mem_insertionSort (fun a b : QARecord => b.created_at ≤ a.created_at)).mp h1
    have h3 := (List.mem_filter.mp h2).2
    simp only [Bool.and_eq_true, beq_iff_eq] at h3
    exact h3.1
  · intro db did uid d hfind
    have hp := List.find?_some hfind
    simp only [Bool.and_eq_true, beq_iff_eq] at hp
    exact hp.2
  · intro db uid lim off sf d hmem
    have h1 : d ∈ (db.filter (fun d => d.user_id == uid &&
        (match sf with | some s => d.processing_status == s | none => true))).insertionSort
        (fun a b => b.created_at ≤ a.created_at) :=
      List.drop_subset off _ (List.take_subset lim _ hmem)
    have h2 := (List.mem_insertionSort (fun a b : DocRecord => b.created_at ≤ a.created_at)).mp h1
    have h3 := (List.mem_filter.mp h2).2
    simp only [Bool.and_eq_true, beq_iff_eq] at h3
    exact h3.1

/-- Witness for C10: the concrete stores contain exactly the owner's
records, and the reads return them. -/
theorem reads_are_owner_scoped_witness :
    c8OtherUsersAnalysis.user_id = 5 ∧
    c2CompletedDoc.user_id = 1 :=
  ⟨reads_are_owner_scoped.1 [c8OtherUsersAnalysis] 1 5 c8OtherUsersAnalysis rfl,
   reads_are_owner_scoped.2.2.1 [c2CompletedDoc] 3 1 c2CompletedDoc rfl⟩

/-- Claim C3 (code bug): processing an existing pending document raises
AttributeError at document.file_path before the extractor is ever
invoked, and the writes the success path would make (extracted_text,
page_count, ocr_metadata) target names that are not columns, so the
ocr_text column is never populated and status completed is never reached:
even under an extractor outcome reporting success, the row ends failed
with the AttributeError message and ocr_text still null, and in general a
process call never returns successfully.  The claimed
text-stored-iff-completed behavior cannot be performed by the program. -/
theorem process_attribute_error_never_stores_text :
    processDocument [c3PendingDoc] 1
        (Except.ok { text := "t", total_pages := 1, success := true }) 5 6
      = ([c3FailedDoc], .error ("Failed to process document: " ++ attributeErrorMsg)) ∧
    c3FailedDoc.processing_status = .failed ∧
    c3FailedDoc.ocr_text = none ∧
    c3FailedDoc.error_message = some attributeErrorMsg ∧
    (∀ (db : DocDB) (docId : Nat) (ocr : Except String OcrResult) (tStart tEnd : Nat),
      ∃ e, (processDocument db docId ocr tStart tEnd).2 = .error e) := by
  refine ⟨rfl, rfl, rfl, rfl, ?_⟩
  intro db docId ocr tStart tEnd
  cases hf : findDocument db docId <;> simp [processDocument, hf]

theorem namesFrom_succ (stem : String) (i k : Nat) :
    namesFrom stem i (k + 1) = (stem, i + 1) :: namesFrom stem (i + 1) k := by
  unfold namesFrom
  rw [List.range_succ_eq_map, List.map_cons, List.map_map]
  refine congrArg₂ _ rfl ?_
  apply List.map_congr_left
  intro j hj
  simp only [Function.comp_apply, Prod.mk.injEq, true_and]
  omega

theorem namesFrom_nodup (stem : String) (i k : Nat) : (namesFrom stem i k).Nodup := by
  unfold namesFrom
  apply List.Nodup.map ?_ (List.nodup_range k)
  intro a b hab
  simp only [Prod.mk.injEq, true_and] at hab
  omega

/-- When every page rasterizes, the conversion loop saves one image per
page and returns them all. -/
theorem convertLoop_all_ok (stem : String) :
    ∀ (pages : List Bool), (∀ b ∈ pages, b = true) →
    ∀ (fs : ImageStore) (acc : List (String × Nat)) (i : Nat),
    convertLoop fs acc stem i pages
      = ((namesFrom stem i pages.length).reverse ++ fs,
         acc.reverse ++ namesFrom stem i pages.length) := by
  intro pages
  induction pages with
  | nil =>
    intro _ fs acc i
    simp [convertLoop, namesFrom]
  | cons b rest ih =>
    intro hall fs acc i
    have hb : b = true := hall b (List.mem_cons_self b rest)
    subst hb
    have hrest : ∀ x ∈ rest, x = true := fun x hx => hall x (List.mem_cons_of_mem _ hx)
    show convertLoop ((stem, i + 1) :: fs) ((stem, i + 1) :: acc) stem (i + 1) rest = _
    rw [ih hrest ((stem, i + 1) :: fs) ((stem, i + 1) :: acc) (i + 1)]
    rw [List.length_cons, namesFrom_succ stem i rest.length]
    simp

/-- The per-page OCR loop unlinks every image it is handed: starting from
a store holding exactly those (pairwise distinct, not pre-existing)
images on top of fs, it ends at fs. -/
theorem extractPagesLoop_clears (extract : String × Nat → String) :
    ∀ (L : List (String × Nat)) (fs : ImageStore),
    L.Nodup → (∀ p ∈ L, p ∉ fs) →
    (extractPagesLoop (L.reverse ++ fs) extract L).1 = fs := by
  intro L
  induction L with
  | nil =>
    intro fs _ _
    simp [extractPagesLoop]
  | cons p rest ih =>
    intro fs hnd hdis
    have hp_rest : p ∉ rest := (List.nodup_cons.mp hnd).1
    have hp_fs : p ∉ fs := hdis p (List.mem_cons_self p rest)
    have hrev : ((p :: rest).reverse ++ fs).erase p = rest.reverse ++ fs := by
      rw [List.reverse_cons, List.append_assoc,
        List.erase_append_right _ (by simpa using hp_rest)]
      simp
    show (let fs1 := ((p :: rest).reverse ++ fs).erase p
          let r := extractPagesLoop fs1 extract rest
          (r.1, extract p :: r.2)).1 = fs
    simp only [hrev]
    exact ih fs (List.nodup_cons.mp hnd).2
      (fun q hq => hdis q (List.mem_cons_of_mem _ hq))

/-- Claim C9 counterexample: a two-page PDF whose second page fails to
rasterize leaves the first page's intermediate image in storage when
extract_text_from_pdf returns — _convert_pdf_to_images catches the error
and returns an empty list without deleting the images already saved, and
the caller then skips the per-page deletion loop entirely. -/
theorem pdf_rasterization_failure_leaks_image :
    (extractTextFromPdf [] "doc" [true, false] (fun _ => "")).1 = [("doc", 1)] ∧
    (extractTextFromPdf [] "doc" [true, false] (fun _ => "")).2.success = false := by
  exact ⟨rfl, rfl⟩

/-- Claim C9 as amended: on every call in which rasterization produces
the image of every page (in particular on the success path and under
arbitrary per-page extraction outcomes, which are caught page-locally),
all intermediate images are deleted before the call returns; only a
partway rasterization failure leaves the already-saved images behind. -/
theorem pdf_images_cleaned_when_rasterization_completes
    (fs : ImageStore) (stem : String) (pages : List Bool)
    (extract : String × Nat → String)
    (hall : ∀ b ∈ pages, b = true)
    (hfresh : ∀ n : Nat, (stem, n) ∉ fs) :
    (extractTextFromPdf fs stem pages extract).1 = fs := by
  unfold extractTextFromPdf convertPdfToImages
  rw [convertLoop_all_ok stem pages hall fs [] 0]
  have hdis : ∀ p ∈ namesFrom stem 0 pages.length, p ∉ fs := by
    intro p hp
    unfold namesFrom at hp
    simp only [List.mem_map, List.mem_range] at hp
    obtain ⟨j, _, rfl⟩ := hp
    exact hfresh _
  cases hL : namesFrom stem 0 pages.length with
  | nil => simp [hL]
  | cons p ps =>
    exact extractPagesLoop_clears extract (p :: ps) fs
      (hL ▸ namesFrom_nodup stem 0 pages.length) (hL ▸ hdis)

/-- Witness for the amended C9 on a concrete two-page extraction over a
store holding an unrelated file. -/
theorem pdf_images_cleaned_when_rasterization_completes_witness :
    (extractTextFromPdf [("other", 3)] "doc" [true, true] (fun _ => "t")).1
      = [("other", 3)] :=
  pdf_images_cleaned_when_rasterization_completes [("other", 3)] "doc" [true, true]
    (fun _ => "t") (by decide) (by intro n h; simp at h)

end LegalAnalysis
